import Mathlib

/-!
Verification of the persona-simulation core against its specification.

The definitions below are a shallow embedding of the Python sources under
`src/persona_sim`.  Python floats are modelled as rationals: every operation
performed by the heuristics (addition, subtraction, multiplication by decimal
literals, `min`, `max`) is exact arithmetic on the decimal values involved, so
the rational model matches the intent of the specification, which is stated
over real numbers.  Python `UUID` values are modelled as natural numbers,
Python dicts as association lists, and raised exceptions as `Except` errors.
-/

set_option linter.unusedVariables false

namespace PersonaSim

/-- Severity classification for objections (`schemas/eval.py`, `ObjectionSeverity`). -/
inductive ObjectionSeverity where
  | low
  | medium
  | high
deriving DecidableEq, Repr

/-- Decision outcome for adoption or usage (`schemas/eval.py`, `WillDecision`). -/
inductive WillDecision where
  | yes
  | no
  | reluctant
deriving DecidableEq, Repr

/-- Trust and fatigue metrics for a persona (`schemas/sim_state.py`, `TrustState`). -/
structure TrustState where
  trust_score : ℚ
  fatigue_score : ℚ
  risk_tolerance : ℚ
deriving DecidableEq, Repr

/-- Clamp helper (`sim/heuristics.py`, `_clamp`):
`max(0.0, min(1.0, value))`. -/
def _clamp (value : ℚ) : ℚ :=
  max 0 (min 1 value)

/-- Summary of an objection extracted from a persona response
(`sim/heuristics.py`, `PersonaResponseObjection`). -/
structure PersonaResponseObjection where
  detail : String
  severity : ObjectionSeverity
deriving DecidableEq, Repr

/-- Structured summary of a persona response used for heuristic updates
(`sim/heuristics.py`, `PersonaResponseSummary`). -/
structure PersonaResponseSummary where
  message : String
  stance : WillDecision
  objections : List PersonaResponseObjection
deriving DecidableEq, Repr

/-- Deterministic trust/fatigue/risk update (`sim/heuristics.py`,
`apply_persona_heuristics`).  The `mode` parameter is accepted by the source
for future specialization but does not alter the adjustments. -/
def apply_persona_heuristics (previous : TrustState) (response : PersonaResponseSummary)
    (mode : String) : TrustState :=
  let trust := previous.trust_score
  let fatigue := previous.fatigue_score
  let base_risk := previous.risk_tolerance
  let adjusted : ℚ × ℚ :=
    match response.stance with
    | WillDecision.yes => (trust + 0.05, fatigue - 0.03)
    | WillDecision.reluctant => (trust - 0.02, fatigue + 0.02)
    | WillDecision.no => (trust - 0.05, fatigue + 0.03)
  let high_objections : ℕ :=
    (response.objections.filter (fun obj => obj.severity = ObjectionSeverity.high)).length
  let trust := adjusted.1 - 0.03 * (high_objections : ℚ)
  let fatigue := adjusted.2 + 0.02 * (high_objections : ℚ)
  let trust := _clamp trust
  let fatigue := _clamp fatigue
  let risk_tolerance := _clamp (max 0 (base_risk - fatigue * 0.2))
  { previous with
      trust_score := trust
      fatigue_score := fatigue
      risk_tolerance := risk_tolerance }

/-- Trust adjustment prescribed by the specification for each stance. -/
def stance_trust_delta : WillDecision → ℚ
  | WillDecision.yes => 0.05
  | WillDecision.reluctant => -0.02
  | WillDecision.no => -0.05

/-- Fatigue adjustment prescribed by the specification for each stance. -/
def stance_fatigue_delta : WillDecision → ℚ
  | WillDecision.yes => -0.03
  | WillDecision.reluctant => 0.02
  | WillDecision.no => 0.03

/-- Number of high-severity objections in a response summary. -/
def high_objection_count (response : PersonaResponseSummary) : ℕ :=
  (response.objections.filter (fun obj => obj.severity = ObjectionSeverity.high)).length

/-- A chat message: role plus content.  Corrective guidance is appended as a
system message (`sim/llm/structured.py`). -/
structure ChatMessage where
  role : String
  content : String
deriving DecidableEq, Repr

/-- Maximum validation attempts (`sim/llm/structured.py`,
`_VALIDATION_ATTEMPTS`). -/
def _VALIDATION_ATTEMPTS : Nat := 3

/-- Cause chained onto a `StructuredOutputError`: either the failure raised by
the responder call itself, or the schema validation failure of the last
attempt. -/
inductive StructuredErrorCause where
  | transport (message : String)
  | validation (message : String)
deriving DecidableEq, Repr

/-- `StructuredOutputError` together with the exception chained as its cause
(`raise StructuredOutputError(...) from ...`). -/
structure StructuredOutputError where
  message : String
  cause : Option StructuredErrorCause
deriving DecidableEq, Repr

/-- Outcome of `invoke_structured`: the validated value, or the raised
`StructuredOutputError`. -/
inductive InvokeResult (V : Type) where
  | ok (value : V)
  | structuredError (e : StructuredOutputError)
deriving DecidableEq, Repr

/-- Corrective guidance text built by `_next_messages`: it quotes the
validation error text and the previous raw reply verbatim. -/
def guidance (validation_error last_content : String) : String :=
  "Fix your JSON. Return ONLY valid JSON that matches the expected schema. "
    ++ "Validation errors: " ++ validation_error ++ ". "
    ++ "Last response content: " ++ last_content

/-- `_next_messages` (`sim/llm/structured.py`): the retry conversation is the
original prompt messages plus one corrective system message. -/
def _next_messages (original_messages : List ChatMessage)
    (validation_error last_content : String) : List ChatMessage :=
  original_messages ++ [⟨"system", guidance validation_error last_content⟩]

/-- The retry loop of `invoke_structured` (`sim/llm/structured.py`).

`oracle n conversation` models the responder call
`retryer(llm.invoke, messages)` made by validation attempt `n`; the tenacity
retryer wrapping transport retries is opaque to the validation loop, so the
call is modelled as a single fallible function.  `parse` models
`_parse_and_validate` for the target schema.  Besides the final result, the
function returns the list of conversations sent to the responder, in order,
so that theorems can speak about how the conversation evolves and how many
responder calls were made. -/
def invokeLoop {V : Type} (oracle : Nat → List ChatMessage → Except String String)
    (parse : String → Except String V) (prompt_messages : List ChatMessage) :
    Nat → List ChatMessage → Nat → Option String →
      InvokeResult V × List (List ChatMessage)
  | 0, _, _, last_error =>
    (InvokeResult.structuredError
      ⟨"Failed to produce a valid structured response.",
        last_error.map StructuredErrorCause.validation⟩, [])
  | fuel + 1, messages, attempt, last_error =>
    match oracle attempt messages with
    | Except.error exc =>
      (InvokeResult.structuredError
        ⟨"LLM invocation failed after retries.",
          some (StructuredErrorCause.transport exc)⟩, [messages])
    | Except.ok content =>
      match parse content with
      | Except.ok value => (InvokeResult.ok value, [messages])
      | Except.error validation_error =>
        let rest := invokeLoop oracle parse prompt_messages fuel
          (_next_messages prompt_messages validation_error content) (attempt + 1)
          (some validation_error)
        (rest.1, messages :: rest.2)

/-- `invoke_structured` (`sim/llm/structured.py`): up to
`_VALIDATION_ATTEMPTS` validation attempts starting from the prompt
conversation. -/
def invoke_structured {V : Type} (oracle : Nat → List ChatMessage → Except String String)
    (parse : String → Except String V) (prompt_messages : List ChatMessage) :
    InvokeResult V × List (List ChatMessage) :=
  invokeLoop oracle parse prompt_messages _VALIDATION_ATTEMPTS prompt_messages 0 none

/-- Responders and schema used for the C4 analysis: the responder always
replies with unparsable content and the schema always rejects it. -/
def c4_oracle : Nat → List ChatMessage → Except String String :=
  fun _ _ => Except.ok "not-json"

def c4_parse : String → Except String Unit :=
  fun _ => Except.error "Expecting value"

def c4_prompt : List ChatMessage :=
  [⟨"user", "Give me a title and count."⟩]

/-- Responder and schema used for the C5 witness: the responder raises a
transport failure on every call. -/
def c5_oracle : Nat → List ChatMessage → Except String String :=
  fun _ _ => Except.error "connection reset"

def c5_parse : String → Except String Unit :=
  fun _ => Except.ok ()

def c5_prompt : List ChatMessage :=
  [⟨"user", "Return structured JSON."⟩]

/-- Responder and schema used for the C6 witness: the responder always replies
with a truncated JSON object and the schema always rejects it. -/
def c6_oracle : Nat → List ChatMessage → Except String String :=
  fun _ _ => Except.ok "truncated"

def c6_parse : String → Except String Unit :=
  fun _ => Except.error "Expecting property name"

def c6_prompt : List ChatMessage :=
  [⟨"user", "Return structured JSON."⟩]

/-- Supported execution modes (`sim/graph/state.py`, `RunMode`). -/
inductive RunMode where
  | singleTurn
  | multiTurn
deriving DecidableEq, Repr

/-- Stimulus categories (`schemas/stimulus.py`, `StimulusType`). -/
inductive StimulusType where
  | feature
  | pricing
  | message
  | incident
deriving DecidableEq, Repr

/-- Input stimulus presented during a run (`schemas/stimulus.py`, `Stimulus`). -/
structure Stimulus where
  type : StimulusType
  content : String
  question : Option String
  attachments : Option (List String)
deriving DecidableEq, Repr

/-- Input for a single turn (`sim/graph/state.py`, `TurnInput`). -/
structure TurnInput where
  stimulus : Stimulus
  question : Option String
deriving DecidableEq, Repr

/-- Static configuration for a simulation run (`sim/graph/state.py`,
`RunConfig`); the `persona_modes` dict is modelled as an association list and
UUIDs as naturals. -/
structure RunConfig where
  run_id : Nat
  model_name : String
  temperature : ℚ
  mode : RunMode
  turns : List TurnInput
  persona_modes : List (Nat × String)
deriving DecidableEq, Repr

/-- The `max_turns` computation appearing verbatim in both
`_route_after_update` (`sim/graph/graph.py`) and `persona_response_node`
(`sim/graph/nodes.py`): `turn_count = len(turns) or 1`, and single-turn mode
forces 1. -/
def max_turns (config : RunConfig) : Nat :=
  let turn_count := if config.turns.length = 0 then 1 else config.turns.length
  if config.mode = RunMode.singleTurn then 1 else turn_count

/-- `_route_after_update` (`sim/graph/graph.py`). -/
def _route_after_update (config : RunConfig) (current_turn : Nat) : String :=
  if current_turn < max_turns config then "continue" else "evaluate"

/-- Whether `persona_response_node` actually executes a turn rather than
returning the state unchanged: the node is a no-op when the current index has
reached `max_turns`, or when the configured turn list is empty so the turn
input is `None` (`sim/graph/nodes.py`). -/
def respond_executes (config : RunConfig) (current_turn : Nat) : Bool :=
  decide (current_turn < max_turns config) && !config.turns.isEmpty

/-- The respond/update/route cycle of `build_simulation_graph`: each pass runs
`persona_response`, then `update_state` (which increments `current_turn` by
one), then follows `_route_after_update` back to `persona_response` on
"continue" and out to the evaluator otherwise.  Returns the number of passes
made and the number of passes in which the respond node actually executed a
turn.  The `fuel` argument bounds the recursion; `max_turns config` passes
always suffice, as proved below. -/
def sim_loop (config : RunConfig) : Nat → Nat → Nat × Nat
  | 0, _ => (0, 0)
  | fuel + 1, current_turn =>
    let fired := if respond_executes config current_turn then 1 else 0
    if _route_after_update config (current_turn + 1) = "continue" then
      let rest := sim_loop config fuel (current_turn + 1)
      (rest.1 + 1, rest.2 + fired)
    else (1, fired)

/-- Number of respond/update passes a run makes, starting from turn index 0. -/
def loop_passes (config : RunConfig) : Nat :=
  (sim_loop config (max_turns config) 0).1

/-- Number of turns actually executed (non-no-op respond passes). -/
def executed_turns (config : RunConfig) : Nat :=
  (sim_loop config (max_turns config) 0).2

/-- Single-turn run configuration with an empty turn list. -/
def c3_config_single_empty : RunConfig :=
  ⟨0, "gpt-4o-mini", 0, RunMode.singleTurn, [], []⟩

/-- Multi-turn run configuration with an empty turn list. -/
def c3_config_multi_empty : RunConfig :=
  ⟨1, "gpt-4o-mini", 0, RunMode.multiTurn, [], []⟩

/-- Single-turn run configuration with one configured turn. -/
def c3_config_single_one : RunConfig :=
  ⟨2, "gpt-4o-mini", 0, RunMode.singleTurn,
    [⟨⟨StimulusType.message, "Launch", none, none⟩, some "Initial question"⟩], []⟩

/-- Persona authority levels (`schemas/persona.py`, `AuthorityLevel`). -/
inductive AuthorityLevel where
  | low
  | medium
  | high
deriving DecidableEq, Repr

/-- Constraints shaping persona behavior (`schemas/persona.py`,
`PersonaConstraints`). -/
structure PersonaConstraints where
  time_per_week_minutes : Int
  budget_gbp : Int
  ai_trust_level : Int
  authority_level : AuthorityLevel
deriving DecidableEq, Repr

/-- Specification of a simulated persona (`schemas/persona.py`,
`PersonaSpec`); the UUID is modelled as a natural number. -/
structure PersonaSpec where
  id : Nat
  name : String
  role : String
  sector : Option String
  locale : String
  incentives : List String
  fears : List String
  constraints : PersonaConstraints
  communication_style : Option String
deriving DecidableEq, Repr

/-- Specification of a scenario (`schemas/scenario.py`, `ScenarioSpec`). -/
structure ScenarioSpec where
  id : Nat
  title : String
  context : String
  deadline : Option String
  stressors : List String
  success_criteria : List String
deriving DecidableEq, Repr

/-- Domain validation error (`sim/errors.py`, `ValidationError`). -/
structure ValidationError where
  message : String
deriving DecidableEq, Repr

/-- `RunMode(run_mode)` lookup by enum value: succeeds exactly on the two
recognized mode strings. -/
def parse_run_mode (run_mode : String) : Option RunMode :=
  if run_mode = "single-turn" then some RunMode.singleTurn
  else if run_mode = "multi-turn" then some RunMode.multiTurn
  else none

/-- `SimulationService._validate_inputs` (`sim/service.py`): the four guards,
in source order. -/
def _validate_inputs (personas : List PersonaSpec) (stimuli : List Stimulus)
    (steps : Int) (run_mode : String) : Except ValidationError Unit :=
  if personas = [] then Except.error ⟨"At least one persona is required"⟩
  else if stimuli = [] then Except.error ⟨"At least one stimulus is required"⟩
  else if steps ≤ 0 then Except.error ⟨"steps must be positive"⟩
  else
    match parse_run_mode run_mode with
    | some _ => Except.ok ()
    | none => Except.error ⟨"Unsupported run mode: " ++ run_mode⟩

/-- Turn construction inside `start_run` (`sim/service.py`): one `TurnInput`
per requested step, indexing the stimuli with the index clamped to the last
entry; the default stimulus of `getD` is never used because the stimuli list
has been validated nonempty. -/
def build_turns (stimuli : List Stimulus) (steps : Nat) : List TurnInput :=
  (List.range steps).map fun idx =>
    let stimulus := stimuli.getD (min idx (stimuli.length - 1))
      ⟨StimulusType.message, "", none, none⟩
    ⟨stimulus, stimulus.question⟩

/-- `SimulationService.start_run` up to graph execution (`sim/service.py`):
validate the inputs, then build the run configuration around a fresh
identifier (passed here as `run_id`, standing for `uuid4()`).  Graph
execution and every persistence call (`create_run` in `init_run_node`, the
transcript writes in `persist_node`) happen strictly after this function
succeeds, so an error result means no run was persisted and no run
identifier was returned to the caller. -/
def start_run (run_id : Nat) (model_name : String) (temperature : ℚ)
    (scenario : ScenarioSpec) (personas : List PersonaSpec)
    (stimuli : List Stimulus) (run_mode : String) (steps : Int) :
    Except ValidationError (Nat × RunConfig) :=
  match _validate_inputs personas stimuli steps run_mode with
  | Except.error e => Except.error e
  | Except.ok _ =>
    let mode := (parse_run_mode run_mode).getD RunMode.singleTurn
    let turns := build_turns stimuli steps.toNat
    Except.ok (run_id, ⟨run_id, model_name, temperature, mode, turns, []⟩)

/-- Whether a fallible computation raised. -/
def is_error {ε α : Type} : Except ε α → Bool
  | Except.error _ => true
  | Except.ok _ => false

/-- Scenario used by the C7 witness. -/
def c7_scenario : ScenarioSpec :=
  ⟨0, "Adopt platform", "Testing adoption", none, ["cost"], ["value"]⟩

/-- Stimulus used by the C7 witness. -/
def c7_stimulus : Stimulus :=
  ⟨StimulusType.message, "Launch", none, none⟩

/-- `_resolve_persona_mode` (`sim/graph/nodes.py`): explicit override from the
mode map when present, else a fixed fallback tuple indexed by the position of
the persona in the list modulo the tuple length, with `next(..., 0)` giving
position 0 for an id that is not in the list. -/
def _resolve_persona_mode (persona_id : Nat) (personas : List PersonaSpec)
    (mode_map : List (Nat × String)) : String :=
  match mode_map.lookup persona_id with
  | some m => m
  | none =>
    let fallback_modes := ["economic_buyer", "daily_user", "anti_persona"]
    let index := (personas.findIdx? fun persona => persona.id == persona_id).getD 0
    fallback_modes.getD (index % fallback_modes.length) ""

/-- The persona-mode policy exactly as the claim states it: explicit override
when the persona id is present in `RunConfig.persona_modes`, otherwise
`fallback_modes[i mod 3]` over (economic_buyer, daily_user, anti_persona)
where `i` is the position of the persona in the persona list, and position 0
when the id is absent from the list. -/
def resolve_persona_mode_claim (persona_id : Nat) (personas : List PersonaSpec)
    (mode_map : List (Nat × String)) : String :=
  match mode_map.lookup persona_id with
  | some m => m
  | none =>
    match personas.findIdx? fun persona => persona.id == persona_id with
    | some index =>
      ["economic_buyer", "daily_user", "anti_persona"].getD (index % 3) ""
    | none => "economic_buyer"

/-- Field names declared by the `PersonaResponse` model in
`sim/graph/state.py` (its `model_config` sets `extra="forbid"`). -/
def state_persona_response_fields : List String :=
  ["persona_id", "content", "stance", "objection_severity"]

/-- Keyword arguments `persona_response_node` passes when constructing a
`PersonaResponse` for the turn result (`sim/graph/nodes.py`). -/
def nodes_persona_response_kwargs : List String :=
  ["persona_id", "content", "persona_mode", "summary", "stance",
    "objection_severity"]

/-- Pydantic construction under `extra="forbid"` accepts the keyword set only
when every provided keyword names a declared field. -/
def pydantic_forbid_accepts (declared provided : List String) : Bool :=
  provided.all fun kwarg => declared.contains kwarg

theorem _clamp_nonneg (value : ℚ) : 0 ≤ _clamp value :=
  le_max_left 0 (min 1 value)

theorem _clamp_le_one (value : ℚ) : _clamp value ≤ 1 :=
  max_le (by norm_num) (min_le_left 1 value)

theorem _clamp_max_zero (value : ℚ) : _clamp (max 0 value) = _clamp value := by
  unfold _clamp
  rw [max_min_distrib_left, max_min_distrib_left, ← max_assoc, max_self]

/-- Closed form of the heuristic update, by cases on the stance. -/
theorem apply_persona_heuristics_closed_form (previous : TrustState)
    (response : PersonaResponseSummary) (mode : String) :
    apply_persona_heuristics previous response mode =
      { trust_score :=
          _clamp (previous.trust_score + stance_trust_delta response.stance
            - 0.03 * (high_objection_count response : ℚ))
        fatigue_score :=
          _clamp (previous.fatigue_score + stance_fatigue_delta response.stance
            + 0.02 * (high_objection_count response : ℚ))
        risk_tolerance :=
          _clamp (max 0 (previous.risk_tolerance
            - _clamp (previous.fatigue_score + stance_fatigue_delta response.stance
                + 0.02 * (high_objection_count response : ℚ)) * 0.2)) } := by
  cases hs : response.stance <;>
    simp [apply_persona_heuristics, stance_trust_delta, stance_fatigue_delta,
      high_objection_count, hs, sub_eq_add_neg]

/-- Projection of the risk tolerance produced by the heuristic update. -/
theorem apply_persona_heuristics_risk (previous : TrustState)
    (response : PersonaResponseSummary) (mode : String) :
    (apply_persona_heuristics previous response mode).risk_tolerance =
      _clamp (max 0 (previous.risk_tolerance
        - _clamp (previous.fatigue_score + stance_fatigue_delta response.stance
            + 0.02 * (high_objection_count response : ℚ)) * 0.2)) := by
  rw [apply_persona_heuristics_closed_form]

theorem _clamp_le_self (value : ℚ) (h : 0 ≤ value) : _clamp value ≤ value :=
  max_le h (min_le_right 1 value)

/-- C1: for every `TrustState` whose three fields lie in `[0,1]` and every
`PersonaResponseSummary` and mode string, the state returned by
`apply_persona_heuristics` has `trust_score`, `fatigue_score` and
`risk_tolerance` all in `[0,1]`. -/
theorem c1_heuristic_update_stays_in_unit_interval (previous : TrustState)
    (response : PersonaResponseSummary) (mode : String)
    (htr : 0 ≤ previous.trust_score ∧ previous.trust_score ≤ 1)
    (hfa : 0 ≤ previous.fatigue_score ∧ previous.fatigue_score ≤ 1)
    (hri : 0 ≤ previous.risk_tolerance ∧ previous.risk_tolerance ≤ 1) :
    (0 ≤ (apply_persona_heuristics previous response mode).trust_score ∧
        (apply_persona_heuristics previous response mode).trust_score ≤ 1) ∧
      (0 ≤ (apply_persona_heuristics previous response mode).fatigue_score ∧
        (apply_persona_heuristics previous response mode).fatigue_score ≤ 1) ∧
      (0 ≤ (apply_persona_heuristics previous response mode).risk_tolerance ∧
        (apply_persona_heuristics previous response mode).risk_tolerance ≤ 1) := by
  rw [apply_persona_heuristics_closed_form]
  exact ⟨⟨_clamp_nonneg _, _clamp_le_one _⟩, ⟨_clamp_nonneg _, _clamp_le_one _⟩,
    ⟨_clamp_nonneg _, _clamp_le_one _⟩⟩

/-- Witness for C1 at the concrete state (0.5, 0.1, 0.7) with a yes stance. -/
theorem c1_heuristic_update_stays_in_unit_interval_witness :
    (((0 : ℚ) ≤ 0.5 ∧ (0.5 : ℚ) ≤ 1) ∧ ((0 : ℚ) ≤ 0.1 ∧ (0.1 : ℚ) ≤ 1) ∧
        ((0 : ℚ) ≤ 0.7 ∧ (0.7 : ℚ) ≤ 1)) ∧
      ((0 ≤ (apply_persona_heuristics ⟨0.5, 0.1, 0.7⟩ ⟨"Yes", WillDecision.yes, []⟩
            "economic_buyer").trust_score ∧
          (apply_persona_heuristics ⟨0.5, 0.1, 0.7⟩ ⟨"Yes", WillDecision.yes, []⟩
            "economic_buyer").trust_score ≤ 1) ∧
        (0 ≤ (apply_persona_heuristics ⟨0.5, 0.1, 0.7⟩ ⟨"Yes", WillDecision.yes, []⟩
            "economic_buyer").fatigue_score ∧
          (apply_persona_heuristics ⟨0.5, 0.1, 0.7⟩ ⟨"Yes", WillDecision.yes, []⟩
            "economic_buyer").fatigue_score ≤ 1) ∧
        (0 ≤ (apply_persona_heuristics ⟨0.5, 0.1, 0.7⟩ ⟨"Yes", WillDecision.yes, []⟩
            "economic_buyer").risk_tolerance ∧
          (apply_persona_heuristics ⟨0.5, 0.1, 0.7⟩ ⟨"Yes", WillDecision.yes, []⟩
            "economic_buyer").risk_tolerance ≤ 1)) :=
  ⟨⟨by norm_num, by norm_num, by norm_num⟩,
    c1_heuristic_update_stays_in_unit_interval ⟨0.5, 0.1, 0.7⟩ ⟨"Yes", WillDecision.yes, []⟩
      "economic_buyer" (by norm_num) (by norm_num) (by norm_num)⟩

theorem invokeLoop_transport {V : Type}
    (oracle : Nat → List ChatMessage → Except String String)
    (parse : String → Except String V) (prompt_messages : List ChatMessage)
    (fuel : Nat) (messages : List ChatMessage) (attempt : Nat)
    (last_error : Option String) (exc : String)
    (h : oracle attempt messages = Except.error exc) :
    invokeLoop oracle parse prompt_messages (fuel + 1) messages attempt last_error =
      (InvokeResult.structuredError
        ⟨"LLM invocation failed after retries.",
          some (StructuredErrorCause.transport exc)⟩, [messages]) := by
  simp [invokeLoop, h]

theorem invokeLoop_validation_failure {V : Type}
    (oracle : Nat → List ChatMessage → Except String String)
    (parse : String → Except String V) (prompt_messages : List ChatMessage)
    (fuel : Nat) (messages : List ChatMessage) (attempt : Nat)
    (last_error : Option String) (content validation_error : String)
    (h : oracle attempt messages = Except.ok content)
    (hp : parse content = Except.error validation_error) :
    invokeLoop oracle parse prompt_messages (fuel + 1) messages attempt last_error =
      ((invokeLoop oracle parse prompt_messages fuel
          (_next_messages prompt_messages validation_error content) (attempt + 1)
          (some validation_error)).1,
        messages :: (invokeLoop oracle parse prompt_messages fuel
          (_next_messages prompt_messages validation_error content) (attempt + 1)
          (some validation_error)).2) := by
  simp [invokeLoop, h, hp]

theorem invokeLoop_last_trace {V : Type}
    (oracle : Nat → List ChatMessage → Except String String)
    (parse : String → Except String V) (prompt_messages : List ChatMessage)
    (messages : List ChatMessage) (attempt : Nat) (last_error : Option String) :
    (invokeLoop oracle parse prompt_messages 1 messages attempt last_error).2
      = [messages] := by
  cases h : oracle attempt messages with
  | error exc => simp [invokeLoop, h]
  | ok content =>
    cases hp : parse content with
    | ok value => simp [invokeLoop, h, hp]
    | error validation_error => simp [invokeLoop, h, hp]

/-- Conversation trace of a run with at least two validation failures: every
attempt after the first talks to the responder over the original prompt plus
exactly one corrective message built from the immediately preceding failure. -/
theorem invoke_structured_trace_two_failures {V : Type}
    (oracle : Nat → List ChatMessage → Except String String)
    (parse : String → Except String V) (prompt_messages : List ChatMessage)
    (content0 error0 content1 error1 : String)
    (h0 : oracle 0 prompt_messages = Except.ok content0)
    (hv0 : parse content0 = Except.error error0)
    (h1 : oracle 1 (_next_messages prompt_messages error0 content0) = Except.ok content1)
    (hv1 : parse content1 = Except.error error1) :
    (invoke_structured oracle parse prompt_messages).2 =
      [prompt_messages, _next_messages prompt_messages error0 content0,
        _next_messages prompt_messages error1 content1] := by
  have s1 : invoke_structured oracle parse prompt_messages =
      ((invokeLoop oracle parse prompt_messages 2
          (_next_messages prompt_messages error0 content0) 1 (some error0)).1,
        prompt_messages :: (invokeLoop oracle parse prompt_messages 2
          (_next_messages prompt_messages error0 content0) 1 (some error0)).2) :=
    invokeLoop_validation_failure oracle parse prompt_messages 2 prompt_messages 0 none
      content0 error0 h0 hv0
  have s2 : invokeLoop oracle parse prompt_messages 2
      (_next_messages prompt_messages error0 content0) 1 (some error0) =
      ((invokeLoop oracle parse prompt_messages 1
          (_next_messages prompt_messages error1 content1) 2 (some error1)).1,
        _next_messages prompt_messages error0 content0 ::
          (invokeLoop oracle parse prompt_messages 1
            (_next_messages prompt_messages error1 content1) 2 (some error1)).2) :=
    invokeLoop_validation_failure oracle parse prompt_messages 1
      (_next_messages prompt_messages error0 content0) 1 (some error0)
      content1 error1 h1 hv1
  have s3 : (invokeLoop oracle parse prompt_messages 1
      (_next_messages prompt_messages error1 content1) 2 (some error1)).2 =
      [_next_messages prompt_messages error1 content1] :=
    invokeLoop_last_trace oracle parse prompt_messages
      (_next_messages prompt_messages error1 content1) 2 (some error1)
  rw [s1]
  simp [s2, s3]

/-- C4 counterexample: with a responder that always replies unparsable content,
attempts 1 and 2 both fail validation, yet the conversation used by the third
attempt holds only one corrective message on top of the one-message prompt
(length 2), not the two corrective turns the claim predicts after two failed
attempts (length 3).  Each retry rebuilds the conversation from
`prompt_messages`, so corrective turns do not accumulate. -/
theorem c4_counterexample_conversation_growth :
    (invoke_structured c4_oracle c4_parse c4_prompt).2 =
        [c4_prompt, _next_messages c4_prompt "Expecting value" "not-json",
          _next_messages c4_prompt "Expecting value" "not-json"] ∧
      ((invoke_structured c4_oracle c4_parse c4_prompt).2.getD 2 []).length = 2 ∧
      ¬ ((invoke_structured c4_oracle c4_parse c4_prompt).2.getD 2 []).length = 3 :=
  ⟨rfl, rfl, by decide⟩

/-- C4 (amended): every decode/validation failure appends one corrective
message, containing the validation error text and the previous raw reply
verbatim, to the ORIGINAL prompt messages; hence each retry conversation has
grown by exactly one corrective turn relative to the prompt, regardless of how
many attempts failed before it. -/
theorem c4_amended_corrective_retry {V : Type}
    (oracle : Nat → List ChatMessage → Except String String)
    (parse : String → Except String V) (prompt_messages : List ChatMessage)
    (content0 error0 content1 error1 : String)
    (h0 : oracle 0 prompt_messages = Except.ok content0)
    (hv0 : parse content0 = Except.error error0)
    (h1 : oracle 1 (prompt_messages ++ [⟨"system", guidance error0 content0⟩])
        = Except.ok content1)
    (hv1 : parse content1 = Except.error error1) :
    (invoke_structured oracle parse prompt_messages).2 =
        [prompt_messages,
          prompt_messages ++ [⟨"system", guidance error0 content0⟩],
          prompt_messages ++ [⟨"system", guidance error1 content1⟩]] ∧
      ((invoke_structured oracle parse prompt_messages).2.getD 1 []).length
          = prompt_messages.length + 1 ∧
      ((invoke_structured oracle parse prompt_messages).2.getD 2 []).length
          = prompt_messages.length + 1 := by
  have key := invoke_structured_trace_two_failures oracle parse prompt_messages
    content0 error0 content1 error1 h0 hv0 h1 hv1
  refine ⟨key, ?_, ?_⟩ <;> rw [key] <;> simp [_next_messages]

/-- Witness for the amended C4 at the concrete always-failing responder. -/
theorem c4_amended_corrective_retry_witness :
    (c4_oracle 0 c4_prompt = Except.ok "not-json" ∧
        c4_parse "not-json" = Except.error "Expecting value" ∧
        c4_oracle 1 (c4_prompt ++ [⟨"system", guidance "Expecting value" "not-json"⟩])
          = Except.ok "not-json") ∧
      ((invoke_structured c4_oracle c4_parse c4_prompt).2 =
          [c4_prompt,
            c4_prompt ++ [⟨"system", guidance "Expecting value" "not-json"⟩],
            c4_prompt ++ [⟨"system", guidance "Expecting value" "not-json"⟩]] ∧
        ((invoke_structured c4_oracle c4_parse c4_prompt).2.getD 1 []).length
            = c4_prompt.length + 1 ∧
        ((invoke_structured c4_oracle c4_parse c4_prompt).2.getD 2 []).length
            = c4_prompt.length + 1) :=
  ⟨⟨rfl, rfl, rfl⟩,
    c4_amended_corrective_retry c4_oracle c4_parse c4_prompt
      "not-json" "Expecting value" "not-json" "Expecting value" rfl rfl rfl rfl⟩

/-- C5: a transport-level failure raised by the responder call of the first
attempt makes `invoke_structured` fail at once with a `StructuredOutputError`
whose cause is that transport failure; the conversation trace shows a single
responder call, so the validation retry path never re-runs the invocation. -/
theorem c5_transport_failure_immediately_fatal {V : Type}
    (oracle : Nat → List ChatMessage → Except String String)
    (parse : String → Except String V) (prompt_messages : List ChatMessage)
    (exc : String) (h : oracle 0 prompt_messages = Except.error exc) :
    invoke_structured oracle parse prompt_messages =
      (InvokeResult.structuredError
        ⟨"LLM invocation failed after retries.",
          some (StructuredErrorCause.transport exc)⟩, [prompt_messages]) :=
  invokeLoop_transport oracle parse prompt_messages 2 prompt_messages 0 none exc h

/-- Witness for C5 at a concrete always-raising responder. -/
theorem c5_transport_failure_immediately_fatal_witness :
    c5_oracle 0 c5_prompt = Except.error "connection reset" ∧
      invoke_structured c5_oracle c5_parse c5_prompt =
        (InvokeResult.structuredError
          ⟨"LLM invocation failed after retries.",
            some (StructuredErrorCause.transport "connection reset")⟩, [c5_prompt]) :=
  ⟨rfl, c5_transport_failure_immediately_fatal c5_oracle c5_parse c5_prompt
    "connection reset" rfl⟩

/-- C6: when all three validation attempts fail schema decoding, the validator
raises a `StructuredOutputError` whose cause is the validation error of the
last attempt, and the conversation trace has exactly three entries, so a
fourth validation attempt is never made. -/
theorem c6_exhaustion_carries_last_validation_error {V : Type}
    (oracle : Nat → List ChatMessage → Except String String)
    (parse : String → Except String V) (prompt_messages : List ChatMessage)
    (content0 error0 content1 error1 content2 error2 : String)
    (h0 : oracle 0 prompt_messages = Except.ok content0)
    (hv0 : parse content0 = Except.error error0)
    (h1 : oracle 1 (_next_messages prompt_messages error0 content0) = Except.ok content1)
    (hv1 : parse content1 = Except.error error1)
    (h2 : oracle 2 (_next_messages prompt_messages error1 content1) = Except.ok content2)
    (hv2 : parse content2 = Except.error error2) :
    (invoke_structured oracle parse prompt_messages).1 =
        InvokeResult.structuredError
          ⟨"Failed to produce a valid structured response.",
            some (StructuredErrorCause.validation error2)⟩ ∧
      (invoke_structured oracle parse prompt_messages).2.length = 3 := by
  have s1 : invoke_structured oracle parse prompt_messages =
      ((invokeLoop oracle parse prompt_messages 2
          (_next_messages prompt_messages error0 content0) 1 (some error0)).1,
        prompt_messages :: (invokeLoop oracle parse prompt_messages 2
          (_next_messages prompt_messages error0 content0) 1 (some error0)).2) :=
    invokeLoop_validation_failure oracle parse prompt_messages 2 prompt_messages 0 none
      content0 error0 h0 hv0
  have s2 : invokeLoop oracle parse prompt_messages 2
      (_next_messages prompt_messages error0 content0) 1 (some error0) =
      ((invokeLoop oracle parse prompt_messages 1
          (_next_messages prompt_messages error1 content1) 2 (some error1)).1,
        _next_messages prompt_messages error0 content0 ::
          (invokeLoop oracle parse prompt_messages 1
            (_next_messages prompt_messages error1 content1) 2 (some error1)).2) :=
    invokeLoop_validation_failure oracle parse prompt_messages 1
      (_next_messages prompt_messages error0 content0) 1 (some error0)
      content1 error1 h1 hv1
  have s3 : invokeLoop oracle parse prompt_messages 1
      (_next_messages prompt_messages error1 content1) 2 (some error1) =
      ((invokeLoop oracle parse prompt_messages 0
          (_next_messages prompt_messages error2 content2) 3 (some error2)).1,
        _next_messages prompt_messages error1 content1 ::
          (invokeLoop oracle parse prompt_messages 0
            (_next_messages prompt_messages error2 content2) 3 (some error2)).2) :=
    invokeLoop_validation_failure oracle parse prompt_messages 0
      (_next_messages prompt_messages error1 content1) 2 (some error1)
      content2 error2 h2 hv2
  have s4 : invokeLoop oracle parse prompt_messages 0
      (_next_messages prompt_messages error2 content2) 3 (some error2) =
      ((InvokeResult.structuredError
          ⟨"Failed to produce a valid structured response.",
            some (StructuredErrorCause.validation error2)⟩ : InvokeResult V), []) := rfl
  rw [s1]
  simp [s2, s3, s4]

/-- Witness for C6 at a concrete responder whose replies never validate. -/
theorem c6_exhaustion_carries_last_validation_error_witness :
    (c6_oracle 0 c6_prompt = Except.ok "truncated" ∧
        c6_parse "truncated" = Except.error "Expecting property name") ∧
      ((invoke_structured c6_oracle c6_parse c6_prompt).1 =
          InvokeResult.structuredError
            ⟨"Failed to produce a valid structured response.",
              some (StructuredErrorCause.validation "Expecting property name")⟩ ∧
        (invoke_structured c6_oracle c6_parse c6_prompt).2.length = 3) :=
  ⟨⟨rfl, rfl⟩,
    c6_exhaustion_carries_last_validation_error c6_oracle c6_parse c6_prompt
      "truncated" "Expecting property name" "truncated" "Expecting property name"
      "truncated" "Expecting property name" rfl rfl rfl rfl rfl rfl⟩

/-- C2: the heuristic update computes exactly the adjustments the specification
states (stance deltas, 0.03/0.02 per high-severity objection, clamping, and the
risk recomputation from the already-clamped fatigue and the pre-update risk
baseline), and in particular matches the two concrete examples from the
specification: (0.5, 0.1, 0.7) with a yes stance and no objections maps to
(0.55, 0.07, 0.686), and (0.5, 0, 0.9) with a yes stance and two high-severity
objections maps to (0.49, 0.01, 0.898). -/
theorem c2_heuristics_exact_formula (previous : TrustState)
    (response : PersonaResponseSummary) (mode : String) :
    (apply_persona_heuristics previous response mode =
      { trust_score := _clamp (previous.trust_score + stance_trust_delta response.stance
          - 0.03 * (high_objection_count response : ℚ))
        fatigue_score := _clamp (previous.fatigue_score + stance_fatigue_delta response.stance
          + 0.02 * (high_objection_count response : ℚ))
        risk_tolerance := _clamp (previous.risk_tolerance
          - _clamp (previous.fatigue_score + stance_fatigue_delta response.stance
              + 0.02 * (high_objection_count response : ℚ)) * 0.2) }) ∧
      apply_persona_heuristics ⟨0.5, 0.1, 0.7⟩ ⟨"", WillDecision.yes, []⟩ "economic_buyer"
        = ⟨0.55, 0.07, 0.686⟩ ∧
      apply_persona_heuristics ⟨0.5, 0, 0.9⟩
          ⟨"", WillDecision.yes,
            [⟨"risk", ObjectionSeverity.high⟩, ⟨"cost", ObjectionSeverity.high⟩]⟩
          "economic_buyer"
        = ⟨0.49, 0.01, 0.898⟩ := by
  refine ⟨?_, ?_, ?_⟩
  · rw [apply_persona_heuristics_closed_form, _clamp_max_zero]
  · norm_num [apply_persona_heuristics, _clamp, List.filter]
  · norm_num [apply_persona_heuristics, _clamp, List.filter]

/-- C10: starting from a state whose fields lie in `[0,1]`, the heuristic
update never increases the risk tolerance. -/
theorem c10_risk_tolerance_never_increases (previous : TrustState)
    (response : PersonaResponseSummary) (mode : String)
    (htr : 0 ≤ previous.trust_score ∧ previous.trust_score ≤ 1)
    (hfa : 0 ≤ previous.fatigue_score ∧ previous.fatigue_score ≤ 1)
    (hri : 0 ≤ previous.risk_tolerance ∧ previous.risk_tolerance ≤ 1) :
    (apply_persona_heuristics previous response mode).risk_tolerance
      ≤ previous.risk_tolerance := by
  rw [apply_persona_heuristics_risk]
  have hf0 : 0 ≤ _clamp (previous.fatigue_score + stance_fatigue_delta response.stance
      + 0.02 * (high_objection_count response : ℚ)) := _clamp_nonneg _
  have h1 : previous.risk_tolerance
      - _clamp (previous.fatigue_score + stance_fatigue_delta response.stance
          + 0.02 * (high_objection_count response : ℚ)) * 0.2
      ≤ previous.risk_tolerance := by nlinarith
  have h2 : max 0 (previous.risk_tolerance
      - _clamp (previous.fatigue_score + stance_fatigue_delta response.stance
          + 0.02 * (high_objection_count response : ℚ)) * 0.2)
      ≤ previous.risk_tolerance := max_le hri.1 h1
  exact le_trans (_clamp_le_self _ (le_max_left 0 _)) h2

theorem max_turns_pos (config : RunConfig) : 0 < max_turns config := by
  unfold max_turns
  by_cases hm : config.mode = RunMode.singleTurn
  · simp [hm]
  · simp only [hm, if_false]
    by_cases hl : config.turns.length = 0
    · simp [hl]
    · simp only [hl, if_false]
      omega

theorem route_continue_iff (config : RunConfig) (t : Nat) :
    _route_after_update config t = "continue" ↔ t < max_turns config := by
  unfold _route_after_update
  by_cases h : t < max_turns config <;> simp [h]

theorem sim_loop_spec (config : RunConfig) :
    ∀ fuel current_turn, max_turns config = current_turn + fuel → 0 < fuel →
      sim_loop config fuel current_turn =
        (fuel, if config.turns.isEmpty then 0 else fuel) := by
  intro fuel
  induction fuel with
  | zero => intro t _ hpos; exact absurd hpos (by omega)
  | succ k ih =>
    intro t hM _
    have hlt : t < max_turns config := by omega
    have hfired : respond_executes config t = !config.turns.isEmpty := by
      simp [respond_executes, hlt]
    rcases Nat.eq_zero_or_pos k with hk | hk
    · subst hk
      have hroute : ¬ _route_after_update config (t + 1) = "continue" := by
        rw [route_continue_iff]; omega
      simp only [sim_loop, hfired, hroute, if_false]
      cases config.turns.isEmpty <;> simp
    · have hroute : _route_after_update config (t + 1) = "continue" := by
        rw [route_continue_iff]; omega
      have hrec := ih (t + 1) (by omega) hk
      simp only [sim_loop, hfired, hroute, if_true, hrec]
      cases config.turns.isEmpty <;> simp

theorem loop_passes_eq (config : RunConfig) : loop_passes config = max_turns config := by
  unfold loop_passes
  rw [sim_loop_spec config (max_turns config) 0 (by omega) (max_turns_pos config)]

theorem executed_turns_eq (config : RunConfig) :
    executed_turns config = if config.turns.isEmpty then 0 else max_turns config := by
  unfold executed_turns
  rw [sim_loop_spec config (max_turns config) 0 (by omega) (max_turns_pos config)]

/-- C3 counterexample: with an empty configured turn list, a single-turn run
executes zero turns rather than exactly one (its single respond pass is a
no-op), and a multi-turn run with zero configured turns still makes one
respond/update pass rather than zero. -/
theorem c3_counterexample_empty_turn_list :
    (executed_turns c3_config_single_empty = 0 ∧
        ¬ executed_turns c3_config_single_empty = 1) ∧
      (loop_passes c3_config_multi_empty = 1 ∧
        ¬ loop_passes c3_config_multi_empty = 0) :=
  ⟨⟨rfl, by decide⟩, ⟨rfl, by decide⟩⟩

/-- C3 (amended): provided at least one `TurnInput` is configured, a
single-turn run executes exactly one turn regardless of the list length and a
multi-turn run with `N` configured turns executes exactly `N`; the machine
always makes exactly `max_turns` respond/update passes, the routing predicate
evaluated after `update` answers "continue" exactly while the turn index is
below `max_turns`, and `max_turns` is 1 in single-turn mode and otherwise the
number of configured turns with a minimum of 1. -/
theorem c3_amended_turn_execution (config : RunConfig) (t : Nat)
    (hne : config.turns ≠ []) :
    executed_turns config =
        (if config.mode = RunMode.singleTurn then 1 else config.turns.length) ∧
      loop_passes config = max_turns config ∧
      (_route_after_update config t = "continue" ↔ t < max_turns config) ∧
      max_turns config =
        (if config.mode = RunMode.singleTurn then 1
          else max 1 config.turns.length) := by
  have hlen : config.turns.length ≠ 0 := by
    intro hzero
    exact hne (List.length_eq_zero.mp hzero)
  have hemp : config.turns.isEmpty = false := by
    cases hc : config.turns with
    | nil => exact absurd hc hne
    | cons a l => rfl
  have hmax : max_turns config =
      (if config.mode = RunMode.singleTurn then 1 else config.turns.length) := by
    unfold max_turns
    by_cases hm : config.mode = RunMode.singleTurn <;> simp [hm, hlen]
  refine ⟨?_, loop_passes_eq config, route_continue_iff config t, ?_⟩
  · rw [executed_turns_eq, hemp, hmax]
    simp
  · rw [hmax]
    by_cases hm : config.mode = RunMode.singleTurn
    · simp [hm]
    · simp only [hm, if_false]
      omega

/-- Witness for the amended C3 at a concrete single-turn configuration. -/
theorem c3_amended_turn_execution_witness :
    c3_config_single_one.turns ≠ [] ∧
      (executed_turns c3_config_single_one =
          (if c3_config_single_one.mode = RunMode.singleTurn then 1
            else c3_config_single_one.turns.length) ∧
        loop_passes c3_config_single_one = max_turns c3_config_single_one ∧
        (_route_after_update c3_config_single_one 0 = "continue" ↔
          0 < max_turns c3_config_single_one) ∧
        max_turns c3_config_single_one =
          (if c3_config_single_one.mode = RunMode.singleTurn then 1
            else max 1 c3_config_single_one.turns.length)) :=
  ⟨by decide, c3_amended_turn_execution c3_config_single_one 0 (by decide)⟩

/-- Witness for C10 at the concrete state (0.5, 0, 0.9) with a yes stance and
two high-severity objections. -/
theorem c10_risk_tolerance_never_increases_witness :
    (((0 : ℚ) ≤ 0.5 ∧ (0.5 : ℚ) ≤ 1) ∧ ((0 : ℚ) ≤ 0 ∧ (0 : ℚ) ≤ 1) ∧
        ((0 : ℚ) ≤ 0.9 ∧ (0.9 : ℚ) ≤ 1)) ∧
      (apply_persona_heuristics ⟨0.5, 0, 0.9⟩
          ⟨"Blockers remain", WillDecision.yes,
            [⟨"risk", ObjectionSeverity.high⟩, ⟨"cost", ObjectionSeverity.high⟩]⟩
          "economic_buyer").risk_tolerance ≤ (0.9 : ℚ) :=
  ⟨⟨by norm_num, by norm_num, by norm_num⟩,
    c10_risk_tolerance_never_increases ⟨0.5, 0, 0.9⟩
      ⟨"Blockers remain", WillDecision.yes,
        [⟨"risk", ObjectionSeverity.high⟩, ⟨"cost", ObjectionSeverity.high⟩]⟩
      "economic_buyer" (by norm_num) (by norm_num) (by norm_num)⟩

theorem _validate_inputs_rejects (personas : List PersonaSpec)
    (stimuli : List Stimulus) (steps : Int) (run_mode : String)
    (h : personas = [] ∨ stimuli = [] ∨ steps ≤ 0 ∨
      (run_mode ≠ "single-turn" ∧ run_mode ≠ "multi-turn")) :
    ∃ e, _validate_inputs personas stimuli steps run_mode = Except.error e := by
  cases hres : _validate_inputs personas stimuli steps run_mode with
  | error e => exact ⟨e, rfl⟩
  | ok u =>
    exfalso
    unfold _validate_inputs at hres
    split_ifs at hres with hp hs hst
    rcases h with h | h | h | ⟨h1, h2⟩
    · exact hp h
    · exact hs h
    · exact hst h
    · have hpm : parse_run_mode run_mode = none := by
        simp [parse_run_mode, h1, h2]
      rw [hpm] at hres
      exact Except.noConfusion hres

/-- C7: `start_run` fails with a `ValidationError` whenever the personas list
is empty, the stimuli list is empty, steps is nonpositive, or the run mode is
unrecognized; the failure happens before the run configuration is built, so
no run is persisted and no run identifier is returned. -/
theorem c7_start_run_rejects_invalid_inputs (run_id : Nat) (model_name : String)
    (temperature : ℚ) (scenario : ScenarioSpec) (personas : List PersonaSpec)
    (stimuli : List Stimulus) (run_mode : String) (steps : Int)
    (h : personas = [] ∨ stimuli = [] ∨ steps ≤ 0 ∨
      (run_mode ≠ "single-turn" ∧ run_mode ≠ "multi-turn")) :
    is_error (start_run run_id model_name temperature scenario personas stimuli
      run_mode steps) = true := by
  obtain ⟨e, he⟩ := _validate_inputs_rejects personas stimuli steps run_mode h
  unfold start_run
  rw [he]
  rfl

/-- Witness for C7: an empty persona list is rejected. -/
theorem c7_start_run_rejects_invalid_inputs_witness :
    (([] : List PersonaSpec) = [] ∨ ([c7_stimulus] : List Stimulus) = [] ∨
        (1 : Int) ≤ 0 ∨
        (("single-turn" : String) ≠ "single-turn" ∧
          ("single-turn" : String) ≠ "multi-turn")) ∧
      is_error (start_run 0 "gpt-4o-mini" 0 c7_scenario [] [c7_stimulus]
        "single-turn" 1) = true :=
  ⟨Or.inl rfl,
    c7_start_run_rejects_invalid_inputs 0 "gpt-4o-mini" 0 c7_scenario []
      [c7_stimulus] "single-turn" 1 (Or.inl rfl)⟩

/-- C9: the effective persona mode the node resolves coincides, for every
persona id, persona list and override map, with the policy stated by the
specification. -/
theorem c9_resolve_persona_mode_matches_claim (persona_id : Nat)
    (personas : List PersonaSpec) (mode_map : List (Nat × String)) :
    _resolve_persona_mode persona_id personas mode_map =
      resolve_persona_mode_claim persona_id personas mode_map := by
  unfold _resolve_persona_mode resolve_persona_mode_claim
  cases mode_map.lookup persona_id with
  | some m => rfl
  | none =>
    cases personas.findIdx? fun persona => persona.id == persona_id with
    | some index => rfl
    | none => rfl

/-- C8 (code-bug evidence): the `PersonaResponse` construction performed by
`persona_response_node` is rejected by the model declared in
`sim/graph/state.py`, because `summary` and `persona_mode` are not among its
fields and extras are forbidden; consequently the first persona response of
any executed turn raises a validation error instead of returning responses
carrying their `PersonaResponseSummary` (which `update_state_node` reads back
as `response.summary` and `response.persona_mode`). -/
theorem c8_persona_response_construction_rejected :
    pydantic_forbid_accepts state_persona_response_fields
        nodes_persona_response_kwargs = false ∧
      state_persona_response_fields.contains "summary" = false ∧
      state_persona_response_fields.contains "persona_mode" = false ∧
      nodes_persona_response_kwargs.contains "summary" = true ∧
      nodes_persona_response_kwargs.contains "persona_mode" = true := by
  decide

end PersonaSim
